import Mathlib

/-!
Shallow embedding of the validated fetch-and-decode pipeline of the
osu-pp-calculator parsing module (`parseBeatmap` / `parseScore` and their
helpers), together with theorems settling the frozen claims about it.

The pipeline orchestrates three external collaborators: a downloader
(`downloadFile`), an md5 hash function, and two decoders (beatmap and
score).  The collaborators are modelled as fields of an explicit
environment `Env`, so every theorem quantifying over the environment holds
for every possible collaborator behaviour; in particular, a result that is
the same for every decoder demonstrates that the decoder is never
consulted, and a result that is the same for every downloader demonstrates
that no acquisition I/O occurs.

JavaScript-specific behaviour is modelled explicitly: optional values are
`Option`, string truthiness (`undefined` and `""` are falsy) is
`strTruthy`, numeric truthiness (NaN and 0 are falsy) is `JSNum.truthy`,
and thrown `Error` objects become an `Except` error carrying the exact
message string built at the corresponding `throw` site.
-/

/-- A Node.js byte buffer, modelled as a list of byte values. -/
abbrev Buffer := List Nat

/-- A beatmap identifier: the source accepts `beatmapId?: string | number`. -/
inductive BId where
  | str (s : String)
  | num (n : Int)
deriving DecidableEq

/-- Rendering of an identifier inside a JS template literal (JS converts an
integral number to its decimal string form). -/
def BId.render : BId → String
  | .str s => s
  | .num n => toString n

/-- A JavaScript numeric value as it occurs in the decoded beatmap's
`metadata.beatmapId` field: either NaN or an integer. -/
inductive JSNum where
  | nan
  | int (n : Int)
deriving DecidableEq

/-- JavaScript truthiness of a numeric value: NaN and 0 are falsy, every
other number is truthy. -/
def JSNum.truthy : JSNum → Bool
  | .nan => false
  | .int n => n != 0

/-- JavaScript truthiness of an optional string: `undefined` and `""` are
falsy, every other string is truthy. -/
def strTruthy : Option String → Bool
  | some s => s != ""
  | none => false

/-- Value of the leading decimal-digit run of a character list. -/
def digitsVal (cs : List Char) : Nat :=
  (cs.takeWhile Char.isDigit).foldl (fun a c => 10 * a + (c.toNat - 48)) 0

/-- JavaScript `parseInt` on a string, decimal form: skip leading
whitespace, allow one sign character, then read a run of decimal digits;
the result is NaN when no digit follows.  (The hexadecimal `0x` branch of
`parseInt` is never reached by this code's identifiers and is not
modelled.) -/
def parseIntStr (s : String) : JSNum :=
  match s.data.dropWhile Char.isWhitespace with
  | '-' :: rest =>
    if rest.takeWhile Char.isDigit = [] then .nan else .int (-(digitsVal rest : Int))
  | '+' :: rest =>
    if rest.takeWhile Char.isDigit = [] then .nan else .int (digitsVal rest)
  | rest =>
    if rest.takeWhile Char.isDigit = [] then .nan else .int (digitsVal rest)

/-- The source's `parseInt(id as string)`: a string identifier is parsed
with `parseInt`; a number identifier is converted to its decimal string
and reparsed, which is the identity for the integral identifiers this
pipeline passes. -/
def parseIntJS : BId → JSNum
  | .str s => parseIntStr s
  | .num n => .int n

/-- The argument shapes the `md5` collaborator is applied to in this code:
a JS string (beatmap path) or a raw byte buffer (score path). -/
inductive Md5Input where
  | str (s : String)
  | buf (b : Buffer)
deriving DecidableEq

/-- Error taxonomy of the pipeline.  Each constructor corresponds to one
`throw` site in the source and carries the exact message string thrown
there. -/
inductive ParseError where
  | missingSource (message : String)
  | downloadFailed (message : String)
  | hashMismatch (message : String)
deriving DecidableEq

/-- The `osu-downloader` `DownloadType` enum (only `Replay` is used here). -/
inductive DownloadType where
  | beatmap
  | replay
deriving DecidableEq

/-- Configuration object handed to `downloadFile`. -/
structure DownloadConfig where
  save : Bool
  id : Option BId := none
  url : Option String := none
  type : Option DownloadType := none

/-- Result object returned by the `downloadFile` collaborator. -/
structure DownloadResult where
  isSuccessful : Bool
  statusText : String
  buffer : Option Buffer := none
  filePath : Option String := none

/-- `IBeatmapParsingOptions` from the repository's interfaces. -/
structure IBeatmapParsingOptions where
  beatmapId : Option BId := none
  savePath : Option String := none
  fileURL : Option String := none
  hash : Option String := none

/-- `IScoreParsingOptions` from the repository's interfaces, extended with
the `fileURL` property that `parseScore` destructures even though the
interface does not declare it (an undeclared property reads as
`undefined`, i.e. `none`, for any caller typed against the interface). -/
structure IScoreParsingOptions where
  replayURL : Option String := none
  lifeBar : Option Bool := none
  savePath : Option String := none
  hash : Option String := none
  fileURL : Option String := none

/-- The slice of the decoded beatmap object this pipeline touches. -/
structure BeatmapMetadata where
  beatmapId : JSNum
deriving DecidableEq

/-- Decoded beatmap object (only the metadata consulted here is modelled). -/
structure IBeatmap where
  metadata : BeatmapMetadata
deriving DecidableEq

/-- `BeatmapParsingResult` from the source. -/
structure BeatmapParsingResult where
  data : IBeatmap
  hash : String
deriving DecidableEq

/-- `ScoreParsingResult` from the source; the decoded score object's type is
a parameter because the pipeline never inspects it. -/
structure ScoreParsingResult (S : Type) where
  data : S
  hash : String
deriving DecidableEq

/-- The external collaborators consumed by the pipeline: md5, Buffer text
decoding (`data.toString()`), the downloader, the filesystem read, and the
two decoders. -/
structure Env (S : Type) where
  md5 : Md5Input → String
  toStr : Buffer → String
  downloadFile : Option String → DownloadConfig → DownloadResult
  readFileSync : String → Buffer
  decodeFromString : String → Bool → IBeatmap
  decodeFromBuffer : Buffer → Bool → S

variable {S : Type}

/-- `parseBeatmapData(data, hash)`: decode text, compute md5 over the text,
reject on a truthy hash option that disagrees, otherwise decode with
storyboard decoding disabled. -/
def parseBeatmapData (env : Env S) (data : Buffer) (hash : Option String) :
    Except ParseError BeatmapParsingResult :=
  let stringified := env.toStr data
  let targetHash := env.md5 (.str stringified)
  if strTruthy hash && (hash.getD "" != targetHash) then
    .error (.hashMismatch "Wrong beatmap file!")
  else
    let parseSb := false
    .ok { data := env.decodeFromString stringified parseSb, hash := targetHash }

/-- The statement `parsed.data.metadata.beatmapId ||= parseInt(id as string)`
from `parseBeatmapById`: assign the parsed numeric identifier when the
current field value is falsy, keep it otherwise. -/
def backfillBeatmapId (parsed : BeatmapParsingResult) (id : BId) :
    BeatmapParsingResult :=
  if parsed.data.metadata.beatmapId.truthy then parsed
  else { parsed with
          data := { parsed.data with
                     metadata := { parsed.data.metadata with
                                    beatmapId := parseIntJS id } } }

/-- `parseBeatmapById(id, hash, savePath)`: download by id (persisting when a
save path is a string), fail when unsuccessful or when not saving and no
buffer came back, obtain the bytes (re-read from disk when the save path is
truthy), parse them, then backfill the beatmap id. -/
def parseBeatmapById (env : Env S) (id : BId) (hash savePath : Option String) :
    Except ParseError BeatmapParsingResult :=
  let result := env.downloadFile savePath { save := savePath.isSome, id := some id }
  if !result.isSuccessful || (!strTruthy savePath && result.buffer.isNone) then
    .error (.downloadFailed
      ("Beatmap with ID \"" ++ id.render ++ "\" failed to download: \"" ++
        result.statusText ++ "\""))
  else
    let data := if strTruthy savePath then env.readFileSync (result.filePath.getD "")
                else result.buffer.getD []
    (parseBeatmapData env data hash).map (fun parsed => backfillBeatmapId parsed id)

/-- `parseCustomBeatmap(url, hash, savePath)`: same acquisition shape as the
by-id path but keyed by URL, and with no beatmap-id backfill. -/
def parseCustomBeatmap (env : Env S) (url : String) (hash savePath : Option String) :
    Except ParseError BeatmapParsingResult :=
  let result := env.downloadFile savePath { save := savePath.isSome, url := some url }
  if !result.isSuccessful || (!strTruthy savePath && result.buffer.isNone) then
    .error (.downloadFailed
      ("Beatmap from \"" ++ url ++ "\" failed to download: " ++ result.statusText))
  else
    let data := if strTruthy savePath then env.readFileSync (result.filePath.getD "")
                else result.buffer.getD []
    parseBeatmapData env data hash

/-- `parseBeatmap(options)`: dispatch on `beatmapId` first (string or number),
then `fileURL`, else throw the missing-source error. -/
def parseBeatmap (env : Env S) (options : IBeatmapParsingOptions) :
    Except ParseError BeatmapParsingResult :=
  match options.beatmapId with
  | some id => parseBeatmapById env id options.hash options.savePath
  | none =>
    match options.fileURL with
    | some url => parseCustomBeatmap env url options.hash options.savePath
    | none => .error (.missingSource "No beatmap ID or beatmap URL was specified!")

/-- `parseScoreData(data, hash)`: compute md5 over the raw bytes, reject on a
truthy hash option that disagrees, otherwise decode with replay-frame
decoding disabled. -/
def parseScoreData (env : Env S) (data : Buffer) (hash : Option String) :
    Except ParseError (ScoreParsingResult S) :=
  let targetHash := env.md5 (.buf data)
  if strTruthy hash && (hash.getD "" != targetHash) then
    .error (.hashMismatch "Wrong beatmap file!")
  else
    let parseReplay := false
    .ok { data := env.decodeFromBuffer data parseReplay, hash := targetHash }

/-- `parseCustomScore(url, hash)`: download the replay with saving disabled
(destination `''`), fail with a fixed message when unsuccessful or without a
buffer, then parse the buffer. -/
def parseCustomScore (env : Env S) (url : String) (hash : Option String) :
    Except ParseError (ScoreParsingResult S) :=
  let result := env.downloadFile (some "")
    { type := some .replay, save := false, url := some url }
  if !result.isSuccessful || result.buffer.isNone then
    .error (.downloadFailed "Replay failed to download!")
  else
    parseScoreData env (result.buffer.getD []) hash

/-- `parseScore(options)`: destructures `fileURL` (not `replayURL`) from the
options object and dispatches on it, else throws the missing-source error. -/
def parseScore (env : Env S) (options : IScoreParsingOptions) :
    Except ParseError (ScoreParsingResult S) :=
  match options.fileURL with
  | some url => parseCustomScore env url options.hash
  | none => .error (.missingSource "No replay URL was specified!")

/-- `part` occurs as a contiguous substring of `msg` (what it means for an
error message to "carry" a piece of information). -/
def containsSub (msg part : String) : Prop := part.data <:+: msg.data

instance (msg part : String) : Decidable (containsSub msg part) :=
  List.decidableInfix part.data msg.data

/-! ### Concrete collaborator environments

Used to evaluate the pipeline on closed inputs.  The md5 stand-ins are
arbitrary executable functions: no theorem below depends on any property of
the real md5 beyond being a function of its argument. -/

/-- A successful environment: every download succeeds with buffer `[97, 98]`,
the decoded beatmap carries a falsy (zero) beatmap id, text hashes to
`"texthash"` and buffers hash to `"bufhash"`. -/
def sampleEnv : Env Nat where
  md5 := fun i => match i with | .str _ => "texthash" | .buf _ => "bufhash"
  toStr := fun b => String.mk (b.map Char.ofNat)
  downloadFile := fun _ _ =>
    { isSuccessful := true, statusText := "OK", buffer := some [97, 98] }
  readFileSync := fun _ => []
  decodeFromString := fun _ _ => { metadata := { beatmapId := .int 0 } }
  decodeFromBuffer := fun _ _ => 7

/-- An environment whose downloads nominally succeed but return neither a
buffer nor a file path. -/
def noBufferEnv : Env Nat where
  md5 := fun _ => "h"
  toStr := fun _ => ""
  downloadFile := fun _ _ => { isSuccessful := true, statusText := "OK", buffer := none }
  readFileSync := fun _ => []
  decodeFromString := fun _ _ => { metadata := { beatmapId := .int 0 } }
  decodeFromBuffer := fun _ _ => 0

/-- An environment whose downloads fail with status text `"404"`. -/
def fail404Env : Env Nat where
  md5 := fun _ => "h"
  toStr := fun _ => ""
  downloadFile := fun _ _ => { isSuccessful := false, statusText := "404" }
  readFileSync := fun _ => []
  decodeFromString := fun _ _ => { metadata := { beatmapId := .int 0 } }
  decodeFromBuffer := fun _ _ => 0

/-! ### Helper lemmas -/

/-- The only error `parseBeatmapData` produces is the hash-mismatch one. -/
theorem parseBeatmapData_error_eq {S : Type} (env : Env S) (data : Buffer)
    (hash : Option String) (e : ParseError)
    (h : parseBeatmapData env data hash = .error e) :
    e = .hashMismatch "Wrong beatmap file!" := by
  unfold parseBeatmapData at h
  by_cases hc : (strTruthy hash && (hash.getD "" != env.md5 (.str (env.toStr data)))) = true
  · simp only [hc, if_true] at h
    injection h with h2
    exact h2.symm
  · simp only [Bool.not_eq_true] at hc
    simp only [hc] at h
    cases h

/-- The only error `parseScoreData` produces is the hash-mismatch one. -/
theorem parseScoreData_error_eq {S : Type} (env : Env S) (data : Buffer)
    (hash : Option String) (e : ParseError)
    (h : parseScoreData env data hash = .error e) :
    e = .hashMismatch "Wrong beatmap file!" := by
  unfold parseScoreData at h
  by_cases hc : (strTruthy hash && (hash.getD "" != env.md5 (.buf data))) = true
  · simp only [hc, if_true] at h
    injection h with h2
    exact h2.symm
  · simp only [Bool.not_eq_true] at hc
    simp only [hc] at h
    cases h

/-- A truthy beatmap id is left unchanged by the backfill assignment. -/
theorem backfillBeatmapId_truthy (parsed : BeatmapParsingResult) (id : BId)
    (h : parsed.data.metadata.beatmapId.truthy = true) :
    backfillBeatmapId parsed id = parsed := by
  unfold backfillBeatmapId
  simp [h]

/-- A falsy beatmap id is replaced by `parseInt` of the identifier. -/
theorem backfillBeatmapId_falsy (parsed : BeatmapParsingResult) (id : BId)
    (h : parsed.data.metadata.beatmapId.truthy = false) :
    (backfillBeatmapId parsed id).data.metadata.beatmapId = parseIntJS id := by
  unfold backfillBeatmapId
  simp [h]

/-- The backfill never changes the hash field. -/
theorem backfillBeatmapId_hash (parsed : BeatmapParsingResult) (id : BId) :
    (backfillBeatmapId parsed id).hash = parsed.hash := by
  unfold backfillBeatmapId
  by_cases h : parsed.data.metadata.beatmapId.truthy = true <;> simp [h]

/-- Successful `parseBeatmapData` results, characterised. -/
theorem parseBeatmapData_ok {S : Type} (env : Env S) (data : Buffer)
    (hash : Option String) (r : BeatmapParsingResult)
    (h : parseBeatmapData env data hash = .ok r) :
    r.hash = env.md5 (.str (env.toStr data)) ∧
    r.data = env.decodeFromString (env.toStr data) false := by
  unfold parseBeatmapData at h
  by_cases hc : (strTruthy hash && (hash.getD "" != env.md5 (.str (env.toStr data)))) = true
  · simp only [hc, if_true] at h
    cases h
  · simp only [Bool.not_eq_true] at hc
    simp only [hc] at h
    cases h
    exact ⟨rfl, rfl⟩

/-- Successful `parseScoreData` results, characterised. -/
theorem parseScoreData_ok {S : Type} (env : Env S) (data : Buffer)
    (hash : Option String) (r : ScoreParsingResult S)
    (h : parseScoreData env data hash = .ok r) :
    r.hash = env.md5 (.buf data) ∧ r.data = env.decodeFromBuffer data false := by
  unfold parseScoreData at h
  by_cases hc : (strTruthy hash && (hash.getD "" != env.md5 (.buf data))) = true
  · simp only [hc, if_true] at h
    cases h
  · simp only [Bool.not_eq_true] at hc
    simp only [hc] at h
    cases h
    exact ⟨rfl, rfl⟩


/-- Analysing `Except.map` at a successful result. -/
theorem except_map_ok {ε α β : Type} (f : α → β) (x : Except ε α) (b : β)
    (h : x.map f = .ok b) : ∃ a, x = .ok a ∧ b = f a := by
  cases x with
  | error e => simp [Except.map] at h
  | ok a =>
    simp only [Except.map] at h
    injection h with h2
    exact ⟨a, rfl, h2.symm⟩

/-- A successful `parseBeatmapById` is a successful `parseBeatmapData` on the
acquired bytes followed by the beatmap-id backfill. -/
theorem parseBeatmapById_ok_exists {S : Type} (env : Env S) (id : BId)
    (hash savePath : Option String) (r : BeatmapParsingResult)
    (h : parseBeatmapById env id hash savePath = .ok r) :
    ∃ d p, parseBeatmapData env d hash = .ok p ∧ r = backfillBeatmapId p id := by
  unfold parseBeatmapById at h
  by_cases hg : (!(env.downloadFile savePath
        { save := savePath.isSome, id := some id }).isSuccessful ||
      (!strTruthy savePath && (env.downloadFile savePath
        { save := savePath.isSome, id := some id }).buffer.isNone)) = true
  · simp only [hg, if_true] at h
    cases h
  · simp only [Bool.not_eq_true] at hg
    simp only [hg] at h
    obtain ⟨p, hp, hr⟩ := except_map_ok _ _ _ h
    exact ⟨_, p, hp, hr⟩

/-- A successful `parseCustomBeatmap` is exactly a successful
`parseBeatmapData` on the acquired bytes, with no post-processing. -/
theorem parseCustomBeatmap_ok_exists {S : Type} (env : Env S) (url : String)
    (hash savePath : Option String) (r : BeatmapParsingResult)
    (h : parseCustomBeatmap env url hash savePath = .ok r) :
    ∃ d, parseBeatmapData env d hash = .ok r := by
  unfold parseCustomBeatmap at h
  by_cases hg : (!(env.downloadFile savePath
        { save := savePath.isSome, url := some url }).isSuccessful ||
      (!strTruthy savePath && (env.downloadFile savePath
        { save := savePath.isSome, url := some url }).buffer.isNone)) = true
  · simp only [hg, if_true] at h
    cases h
  · simp only [Bool.not_eq_true] at hg
    simp only [hg] at h
    exact ⟨_, h⟩

/-- A successful `parseCustomScore` is exactly a successful `parseScoreData`
on the downloaded buffer. -/
theorem parseCustomScore_ok_exists {S : Type} (env : Env S) (url : String)
    (hash : Option String) (r : ScoreParsingResult S)
    (h : parseCustomScore env url hash = .ok r) :
    ∃ d, parseScoreData env d hash = .ok r := by
  unfold parseCustomScore at h
  by_cases hg : (!(env.downloadFile (some "")
        { type := some .replay, save := false, url := some url }).isSuccessful ||
      (env.downloadFile (some "")
        { type := some .replay, save := false, url := some url }).buffer.isNone) = true
  · simp only [hg, if_true] at h
    cases h
  · simp only [Bool.not_eq_true] at hg
    simp only [hg] at h
    exact ⟨_, h⟩

/-- C1 counterexample: an acquisition where `options.hash` is supplied (as
the empty string) and differs from the computed content hash `"texthash"`
nevertheless succeeds and decodes, instead of failing with the
hash-mismatch error — so the claim, which quantifies over every supplied
hash, fails at this input. -/
theorem c1_supplied_empty_hash_not_rejected :
    (({ beatmapId := some (.num 1), hash := some "" } :
        IBeatmapParsingOptions).hash).isSome = true ∧
    some "" ≠ some (sampleEnv.md5 (.str (sampleEnv.toStr [97, 98]))) ∧
    parseBeatmap sampleEnv { beatmapId := some (.num 1), hash := some "" } =
      .ok { data := { metadata := { beatmapId := .int 1 } }, hash := "texthash" } := by
  refine ⟨rfl, by decide, rfl⟩

/-- C1 amended: for every acquisition where `options.hash` is supplied as a
non-empty (truthy) string that differs from the hash computed over the
acquired bytes, the pipeline fails with the hash-mismatch error.  The
result is the same for every environment, hence for every decoder: the
decoder collaborator is never invoked. -/
theorem hash_mismatch_fails_closed {S : Type} (env : Env S) (data : Buffer)
    (h : String) (hne : h ≠ "") :
    (h ≠ env.md5 (.str (env.toStr data)) →
      parseBeatmapData env data (some h) =
        .error (.hashMismatch "Wrong beatmap file!")) ∧
    (h ≠ env.md5 (.buf data) →
      parseScoreData env data (some h) =
        .error (.hashMismatch "Wrong beatmap file!")) := by
  constructor
  · intro hd
    unfold parseBeatmapData
    simp [strTruthy, hne, hd]
  · intro hd
    unfold parseScoreData
    simp [strTruthy, hne, hd]

/-- C1 amended, witnessed at a concrete input. -/
theorem hash_mismatch_fails_closed_witness :
    parseBeatmapData sampleEnv [97] (some "x") =
      .error (.hashMismatch "Wrong beatmap file!") ∧
    parseScoreData sampleEnv [97] (some "x") =
      .error (.hashMismatch "Wrong beatmap file!") :=
  ⟨(hash_mismatch_fails_closed sampleEnv [97] "x" (by decide)).1 (by decide),
   (hash_mismatch_fails_closed sampleEnv [97] "x" (by decide)).2 (by decide)⟩

/-- C2: every successful parse returns, in its `hash` field, the md5 of
exactly the input handed to the decoder — the text decoding of the bytes
for beatmaps, the raw bytes for scores — whether or not a hash option was
supplied; and when the supplied hash equals the computed one, the call
succeeds and the returned hash equals the supplied one. -/
theorem returned_hash_matches_decoded_input {S : Type} (env : Env S)
    (data : Buffer) (hash : Option String)
    (bopts : IBeatmapParsingOptions) (sopts : IScoreParsingOptions) :
    (∀ r, parseBeatmapData env data hash = .ok r →
      r.hash = env.md5 (.str (env.toStr data)) ∧
      r.data = env.decodeFromString (env.toStr data) false) ∧
    (∀ r, parseScoreData env data hash = .ok r →
      r.hash = env.md5 (.buf data) ∧ r.data = env.decodeFromBuffer data false) ∧
    (hash = some (env.md5 (.str (env.toStr data))) →
      parseBeatmapData env data hash =
        .ok { data := env.decodeFromString (env.toStr data) false,
              hash := env.md5 (.str (env.toStr data)) }) ∧
    (hash = some (env.md5 (.buf data)) →
      parseScoreData env data hash =
        .ok { data := env.decodeFromBuffer data false,
              hash := env.md5 (.buf data) }) ∧
    (∀ r, parseBeatmap env bopts = .ok r →
      ∃ d p, parseBeatmapData env d bopts.hash = .ok p ∧ r.hash = p.hash ∧
        p.hash = env.md5 (.str (env.toStr d)) ∧
        p.data = env.decodeFromString (env.toStr d) false) ∧
    (∀ r, parseScore env sopts = .ok r →
      ∃ d, r.hash = env.md5 (.buf d) ∧ r.data = env.decodeFromBuffer d false) := by
  refine ⟨fun r h => parseBeatmapData_ok env data hash r h,
          fun r h => parseScoreData_ok env data hash r h, ?_, ?_, ?_, ?_⟩
  · intro he
    subst he
    simp [parseBeatmapData]
  · intro he
    subst he
    simp [parseScoreData]
  · intro r h
    unfold parseBeatmap at h
    cases hb : bopts.beatmapId with
    | some id =>
      rw [hb] at h
      obtain ⟨d, p, hp, hr⟩ :=
        parseBeatmapById_ok_exists env id bopts.hash bopts.savePath r h
      obtain ⟨h1, h2⟩ := parseBeatmapData_ok env d bopts.hash p hp
      exact ⟨d, p, hp, by rw [hr, backfillBeatmapId_hash], h1, h2⟩
    | none =>
      rw [hb] at h
      cases hf : bopts.fileURL with
      | some url =>
        rw [hf] at h
        obtain ⟨d, hd⟩ :=
          parseCustomBeatmap_ok_exists env url bopts.hash bopts.savePath r h
        obtain ⟨h1, h2⟩ := parseBeatmapData_ok env d bopts.hash r hd
        exact ⟨d, r, hd, rfl, h1, h2⟩
      | none =>
        rw [hf] at h
        exact Except.noConfusion h
  · intro r h
    unfold parseScore at h
    cases hf : sopts.fileURL with
    | some url =>
      rw [hf] at h
      obtain ⟨d, hd⟩ := parseCustomScore_ok_exists env url sopts.hash r h
      obtain ⟨h1, h2⟩ := parseScoreData_ok env d sopts.hash r hd
      exact ⟨d, h1, h2⟩
    | none =>
      rw [hf] at h
      exact Except.noConfusion h

/-- C2 witnessed at concrete inputs: a matching supplied hash is returned
unchanged on both paths. -/
theorem returned_hash_matches_decoded_input_witness :
    parseBeatmapData sampleEnv [97] (some "texthash") =
      .ok { data := { metadata := { beatmapId := .int 0 } }, hash := "texthash" } ∧
    parseScoreData sampleEnv [97] (some "bufhash") =
      .ok { data := 7, hash := "bufhash" } :=
  ⟨(returned_hash_matches_decoded_input sampleEnv [97] (some "texthash")
      {} {}).2.2.1 (by decide),
   (returned_hash_matches_decoded_input sampleEnv [97] (some "bufhash")
      {} {}).2.2.2.1 (by decide)⟩

/-- C3: a beatmap request with neither identifier nor file URL, and a score
request with no (consulted) source URL, fail with the missing-source
errors.  The result is a constant in the environment, in particular
identical for every downloader: no acquisition I/O can have occurred. -/
theorem missing_source_fails_before_io {S : Type} (env : Env S)
    (bopts : IBeatmapParsingOptions) (sopts : IScoreParsingOptions)
    (hb1 : bopts.beatmapId = none) (hb2 : bopts.fileURL = none)
    (hs : sopts.fileURL = none) :
    parseBeatmap env bopts =
      .error (.missingSource "No beatmap ID or beatmap URL was specified!") ∧
    parseScore env sopts =
      .error (.missingSource "No replay URL was specified!") := by
  unfold parseBeatmap parseScore
  rw [hb1, hb2, hs]
  exact ⟨rfl, rfl⟩

/-- C3 witnessed at concrete empty requests. -/
theorem missing_source_fails_before_io_witness :
    parseBeatmap sampleEnv {} =
      .error (.missingSource "No beatmap ID or beatmap URL was specified!") ∧
    parseScore sampleEnv {} =
      .error (.missingSource "No replay URL was specified!") :=
  missing_source_fails_before_io sampleEnv {} {} rfl rfl rfl

/-- Error results pass through `Except.map` unchanged. -/
theorem except_map_error {ε α β : Type} (f : α → β) (x : Except ε α) (e : ε)
    (h : x.map f = .error e) : x = .error e := by
  cases x with
  | error a =>
    simp only [Except.map] at h
    injection h with h2
    rw [h2]
  | ok a => simp [Except.map] at h

/-- C4: a beatmap acquisition fails with the download-failed error whenever
the downloader reports failure, or reports nominal success while the
request is not persisting to disk and no in-memory buffer was returned; in
particular success with saving disabled and no buffer is failure, never
valid zero-length content. -/
theorem download_failure_is_rejected {S : Type} (env : Env S) (id : BId)
    (url : String) (hash savePath : Option String) :
    ((env.downloadFile savePath
        { save := savePath.isSome, id := some id }).isSuccessful = false ∨
      (strTruthy savePath = false ∧
        (env.downloadFile savePath
          { save := savePath.isSome, id := some id }).buffer = none) →
      parseBeatmapById env id hash savePath = .error (.downloadFailed
        ("Beatmap with ID \"" ++ id.render ++ "\" failed to download: \"" ++
          (env.downloadFile savePath
            { save := savePath.isSome, id := some id }).statusText ++ "\""))) ∧
    ((env.downloadFile savePath
        { save := savePath.isSome, url := some url }).isSuccessful = false ∨
      (strTruthy savePath = false ∧
        (env.downloadFile savePath
          { save := savePath.isSome, url := some url }).buffer = none) →
      parseCustomBeatmap env url hash savePath = .error (.downloadFailed
        ("Beatmap from \"" ++ url ++ "\" failed to download: " ++
          (env.downloadFile savePath
            { save := savePath.isSome, url := some url }).statusText))) := by
  constructor
  · intro hcond
    unfold parseBeatmapById
    have hg : (!(env.downloadFile savePath
          { save := savePath.isSome, id := some id }).isSuccessful ||
        (!strTruthy savePath && (env.downloadFile savePath
          { save := savePath.isSome, id := some id }).buffer.isNone)) = true := by
      rcases hcond with h1 | ⟨h1, h2⟩
      · simp [h1]
      · simp [h1, h2]
    simp [hg]
  · intro hcond
    unfold parseCustomBeatmap
    have hg : (!(env.downloadFile savePath
          { save := savePath.isSome, url := some url }).isSuccessful ||
        (!strTruthy savePath && (env.downloadFile savePath
          { save := savePath.isSome, url := some url }).buffer.isNone)) = true := by
      rcases hcond with h1 | ⟨h1, h2⟩
      · simp [h1]
      · simp [h1, h2]
    simp [hg]

/-- C4 witnessed at the boundary input: nominal success, saving disabled,
no buffer. -/
theorem download_failure_is_rejected_witness :
    parseBeatmapById noBufferEnv (.num 5) none none =
      .error (.downloadFailed "Beatmap with ID \"5\" failed to download: \"OK\"") ∧
    parseCustomBeatmap noBufferEnv "https://u" none none =
      .error (.downloadFailed "Beatmap from \"https://u\" failed to download: OK") :=
  ⟨(download_failure_is_rejected noBufferEnv (.num 5) "https://u" none none).1
      (Or.inr ⟨rfl, rfl⟩),
   (download_failure_is_rejected noBufferEnv (.num 5) "https://u" none none).2
      (Or.inr ⟨rfl, rfl⟩)⟩

/-- C5 counterexample: a score download answered with status text "404"
fails with the fixed message "Replay failed to download!", which carries
neither the status text "404" nor the source URL — refuting the claim that
every acquisition failure surfaces both. -/
theorem c5_score_error_lacks_status_and_source :
    parseScore fail404Env { fileURL := some "https://x/replay.osr" } =
      .error (.downloadFailed "Replay failed to download!") ∧
    ¬ containsSub "Replay failed to download!" "404" ∧
    ¬ containsSub "Replay failed to download!" "https://x/replay.osr" :=
  ⟨rfl, by decide, by decide⟩

/-- C5 amended: beatmap acquisition failures carry both the downloader's
status text and the source descriptor (identifier or URL) inside the error
message, while score acquisition failures carry the fixed message "Replay
failed to download!" with neither. -/
theorem download_failed_message_content {S : Type} (env : Env S) (id : BId)
    (url surl : String) (hash savePath shash : Option String) :
    (∀ e, parseBeatmapById env id hash savePath = .error (.downloadFailed e) →
      containsSub e (env.downloadFile savePath
        { save := savePath.isSome, id := some id }).statusText ∧
      containsSub e id.render) ∧
    (∀ e, parseCustomBeatmap env url hash savePath = .error (.downloadFailed e) →
      containsSub e (env.downloadFile savePath
        { save := savePath.isSome, url := some url }).statusText ∧
      containsSub e url) ∧
    (∀ e, parseCustomScore env surl shash = .error (.downloadFailed e) →
      e = "Replay failed to download!") := by
  refine ⟨?_, ?_, ?_⟩
  · intro e he
    unfold parseBeatmapById at he
    by_cases hg : (!(env.downloadFile savePath
          { save := savePath.isSome, id := some id }).isSuccessful ||
        (!strTruthy savePath && (env.downloadFile savePath
          { save := savePath.isSome, id := some id }).buffer.isNone)) = true
    · simp only [hg, if_true] at he
      injection he with h2
      injection h2 with h3
      rw [← h3]
      constructor
      · exact ⟨("Beatmap with ID \"" ++ id.render ++
          "\" failed to download: \"").data, "\"".data, by
            simp [containsSub, String.data_append]⟩
      · exact ⟨("Beatmap with ID \"").data, ("\" failed to download: \"" ++
          (env.downloadFile savePath
            { save := savePath.isSome, id := some id }).statusText ++ "\"").data, by
            simp [containsSub, String.data_append]⟩
    · simp only [Bool.not_eq_true] at hg
      simp only [hg] at he
      have hx := except_map_error _ _ _ he
      exact ParseError.noConfusion (parseBeatmapData_error_eq env _ hash _ hx)
  · intro e he
    unfold parseCustomBeatmap at he
    by_cases hg : (!(env.downloadFile savePath
          { save := savePath.isSome, url := some url }).isSuccessful ||
        (!strTruthy savePath && (env.downloadFile savePath
          { save := savePath.isSome, url := some url }).buffer.isNone)) = true
    · simp only [hg, if_true] at he
      injection he with h2
      injection h2 with h3
      rw [← h3]
      constructor
      · exact ⟨("Beatmap from \"" ++ url ++ "\" failed to download: ").data,
          [], by simp [containsSub, String.data_append]⟩
      · exact ⟨("Beatmap from \"").data, ("\" failed to download: " ++
          (env.downloadFile savePath
            { save := savePath.isSome, url := some url }).statusText).data, by
            simp [containsSub, String.data_append]⟩
    · simp only [Bool.not_eq_true] at hg
      simp only [hg] at he
      exact ParseError.noConfusion (parseBeatmapData_error_eq env _ hash _ he)
  · intro e he
    unfold parseCustomScore at he
    by_cases hg : (!(env.downloadFile (some "")
          { type := some .replay, save := false, url := some surl }).isSuccessful ||
        (env.downloadFile (some "")
          { type := some .replay, save := false, url := some surl }).buffer.isNone) = true
    · simp only [hg, if_true] at he
      injection he with h2
      injection h2 with h3
      exact h3.symm
    · simp only [Bool.not_eq_true] at hg
      simp only [hg] at he
      exact ParseError.noConfusion (parseScoreData_error_eq env _ shash _ he)

/-- C5 amended, witnessed at concrete failing downloads. -/
theorem download_failed_message_content_witness :
    (containsSub "Beatmap with ID \"7\" failed to download: \"404\"" "404" ∧
      containsSub "Beatmap with ID \"7\" failed to download: \"404\"" "7") ∧
    (containsSub "Beatmap from \"https://u\" failed to download: 404" "404" ∧
      containsSub "Beatmap from \"https://u\" failed to download: 404" "https://u") ∧
    "Replay failed to download!" = "Replay failed to download!" :=
  ⟨(download_failed_message_content fail404Env (.num 7) "https://u" "https://s"
      none none none).1 "Beatmap with ID \"7\" failed to download: \"404\"" rfl,
   (download_failed_message_content fail404Env (.num 7) "https://u" "https://s"
      none none none).2.1 "Beatmap from \"https://u\" failed to download: 404" rfl,
   (download_failed_message_content fail404Env (.num 7) "https://u" "https://s"
      none none none).2.2 "Replay failed to download!" rfl⟩

/-- C6: the beatmap stage hashes the text decoding of the bytes while the
score stage hashes the raw byte sequence: on the same underlying bytes the
hash collaborator receives arguments of the two distinct shapes, which are
never equal. -/
theorem hash_method_asymmetry {S : Type} (env : Env S) (data : Buffer)
    (hash : Option String) :
    (∀ r, parseBeatmapData env data hash = .ok r →
      r.hash = env.md5 (.str (env.toStr data))) ∧
    (∀ r, parseScoreData env data hash = .ok r →
      r.hash = env.md5 (.buf data)) ∧
    (∀ s b, Md5Input.str s ≠ Md5Input.buf b) :=
  ⟨fun r h => (parseBeatmapData_ok env data hash r h).1,
   fun r h => (parseScoreData_ok env data hash r h).1,
   fun _ _ h => Md5Input.noConfusion h⟩

/-- C6 witnessed at a concrete input where the two hashes even differ in
value. -/
theorem hash_method_asymmetry_witness :
    ({ data := { metadata := { beatmapId := JSNum.int 0 } }, hash := "texthash" } :
      BeatmapParsingResult).hash = sampleEnv.md5 (.str (sampleEnv.toStr [97])) ∧
    ({ data := 7, hash := "bufhash" } : ScoreParsingResult Nat).hash =
      sampleEnv.md5 (.buf [97]) :=
  ⟨(hash_method_asymmetry sampleEnv [97] none).1 _ rfl,
   (hash_method_asymmetry sampleEnv [97] none).2.1 _ rfl⟩

/-- C7: after a successful by-identifier parse the result is the backfill of
the decoded object — unchanged when its beatmap-id metadata is truthy,
with the field replaced by the numeric form of the acquisition identifier
when falsy; a successful by-URL parse returns the decoder's output
untouched, whatever its beatmap-id field holds. -/
theorem beatmap_id_backfill {S : Type} (env : Env S) (id : BId) (url : String)
    (hash savePath : Option String) :
    (∀ r, parseBeatmapById env id hash savePath = .ok r →
      ∃ d p, parseBeatmapData env d hash = .ok p ∧ r = backfillBeatmapId p id ∧
        (p.data.metadata.beatmapId.truthy = true → r = p) ∧
        (p.data.metadata.beatmapId.truthy = false →
          r.data.metadata.beatmapId = parseIntJS id)) ∧
    (∀ r, parseCustomBeatmap env url hash savePath = .ok r →
      ∃ d, r.data = env.decodeFromString (env.toStr d) false ∧
        r.hash = env.md5 (.str (env.toStr d))) := by
  constructor
  · intro r h
    obtain ⟨d, p, hp, hr⟩ := parseBeatmapById_ok_exists env id hash savePath r h
    refine ⟨d, p, hp, hr, ?_, ?_⟩
    · intro ht
      rw [hr, backfillBeatmapId_truthy p id ht]
    · intro hf
      rw [hr]
      exact backfillBeatmapId_falsy p id hf
  · intro r h
    obtain ⟨d, hd⟩ := parseCustomBeatmap_ok_exists env url hash savePath r h
    obtain ⟨h1, h2⟩ := parseBeatmapData_ok env d hash r hd
    exact ⟨d, h2, h1⟩

/-- C7 witnessed at a concrete by-identifier request whose decoded object
carries a falsy (zero) beatmap id, which gets backfilled to 123. -/
theorem beatmap_id_backfill_witness :
    ∃ d p, parseBeatmapData sampleEnv d none = .ok p ∧
      ({ data := { metadata := { beatmapId := JSNum.int 123 } },
          hash := "texthash" } : BeatmapParsingResult) =
        backfillBeatmapId p (.num 123) ∧
      (p.data.metadata.beatmapId.truthy = true →
        ({ data := { metadata := { beatmapId := JSNum.int 123 } },
            hash := "texthash" } : BeatmapParsingResult) = p) ∧
      (p.data.metadata.beatmapId.truthy = false →
        ({ data := { metadata := { beatmapId := JSNum.int 123 } },
            hash := "texthash" } : BeatmapParsingResult).data.metadata.beatmapId =
          parseIntJS (.num 123)) :=
  (beatmap_id_backfill sampleEnv (.num 123) "u" none none).1 _ rfl

/-- C8 counterexample: a beatmap request with both acquisition modes set
(identifier and file URL) is not rejected as a usage error: the pipeline
proceeds with by-identifier acquisition, downloads, decodes and succeeds. -/
theorem c8_both_modes_not_rejected :
    parseBeatmap sampleEnv
      { beatmapId := some (.num 42), fileURL := some "https://x/file.osu" } =
      .ok { data := { metadata := { beatmapId := .int 42 } },
            hash := "texthash" } :=
  rfl

/-- C8 amended: when both acquisition modes are supplied the request is not
rejected; the identifier mode takes precedence and the call behaves exactly
as a by-identifier request, the file URL being ignored. -/
theorem both_modes_id_precedence {S : Type} (env : Env S)
    (options : IBeatmapParsingOptions) (id : BId)
    (h : options.beatmapId = some id) :
    parseBeatmap env options =
      parseBeatmapById env id options.hash options.savePath := by
  unfold parseBeatmap
  rw [h]

/-- C8 amended, witnessed with both modes set. -/
theorem both_modes_id_precedence_witness :
    parseBeatmap sampleEnv
      { beatmapId := some (.num 42), fileURL := some "https://x/file.osu" } =
      parseBeatmapById sampleEnv (.num 42) none none :=
  both_modes_id_precedence sampleEnv
    { beatmapId := some (.num 42), fileURL := some "https://x/file.osu" }
    (.num 42) rfl

/-- C9: `parseScore` consults only the `fileURL` property of its options: a
request that supplies a URL solely through the `replayURL` field declared
by the interface fails with the missing-source error, identically for
every environment — no download is attempted. -/
theorem score_consults_only_fileURL {S : Type} (env : Env S)
    (options : IScoreParsingOptions) (u : String)
    (_hr : options.replayURL = some u) (hf : options.fileURL = none) :
    parseScore env options =
      .error (.missingSource "No replay URL was specified!") := by
  unfold parseScore
  rw [hf]

/-- C9 witnessed at a concrete request carrying only `replayURL`. -/
theorem score_consults_only_fileURL_witness :
    parseScore sampleEnv { replayURL := some "https://x/replay.osr" } =
      .error (.missingSource "No replay URL was specified!") :=
  score_consults_only_fileURL sampleEnv
    { replayURL := some "https://x/replay.osr" } "https://x/replay.osr" rfl rfl

/-- C10: a hash option supplied as the empty string is falsy, so validation
is skipped entirely: both data stages behave exactly as with no hash option
at all and always succeed — never with a hash-mismatch error — whatever
hash the environment computes. -/
theorem empty_hash_skips_validation {S : Type} (env : Env S) (data : Buffer) :
    parseBeatmapData env data (some "") = parseBeatmapData env data none ∧
    parseScoreData env data (some "") = parseScoreData env data none ∧
    parseBeatmapData env data (some "") =
      .ok { data := env.decodeFromString (env.toStr data) false,
            hash := env.md5 (.str (env.toStr data)) } ∧
    parseScoreData env data (some "") =
      .ok { data := env.decodeFromBuffer data false,
            hash := env.md5 (.buf data) } :=
  ⟨rfl, rfl, rfl, rfl⟩
